import Mathlib

/-!
Verification of `jtop_fast_gpu_utilization_only`
(`src/jtop_fast_gpu_utilization_only/gpu_monitor.py`).

Shallow embedding of the `FastGPUMonitor` class.  Python floats (times,
intervals) are idealised as rationals, utilization values as integers.
The monitoring thread is modelled by running the loop body of `_monitor`
over an explicit finite trace of environment events: per iteration, the
observed value of the stop event, the content of the source file
(`none` = open failed: missing file, permission error, I/O error), and
the wall-clock instant `time.time()` returns.  Exceptions raised by a
method are modelled with `Except`; since every `raise` in the source
happens before any attribute assignment, the error branch leaves the
object unchanged by construction.
-/

/-- The whitespace characters removed by Python `str.strip()` (ASCII
subset; the source file never contains non-ASCII whitespace). -/
def isPyWhitespace (c : Char) : Bool :=
  c = ' ' || c = '\t' || c = '\n' || c = '\r' || c = '\x0b' || c = '\x0c'

/-- Python `str.strip()`: drop leading and trailing whitespace. -/
def pyStrip (s : String) : String :=
  String.mk (((s.data.dropWhile isPyWhitespace).reverse.dropWhile
    isPyWhitespace).reverse)

/-- Accumulate the value of a decimal digit string. -/
def digitsVal (cs : List Char) : ℕ :=
  cs.foldl (fun n c => 10 * n + (c.toNat - 48)) 0

/-- Parse a non-empty all-digit character list as a natural number;
`none` otherwise. -/
def parseNatDigits (cs : List Char) : Option ℕ :=
  if cs ≠ [] ∧ cs.all Char.isDigit then some (digitsVal cs) else none

/-- Python `int(s)` on an (already whitespace-trimmed) string: optional
sign followed by decimal digits; `none` models `ValueError`.  (The
underscore digit-separator extension of Python `int` is not modelled;
the source format is a plain integer.) -/
def pyInt (s : String) : Option ℤ :=
  match s.data with
  | '+' :: rest => (parseNatDigits rest).map (fun n => (n : ℤ))
  | '-' :: rest => (parseNatDigits rest).map (fun n => -(n : ℤ))
  | cs => (parseNatDigits cs).map (fun n => (n : ℤ))

/-- `int(f.read().strip())` applied to the content of the source file,
where `none` content means the `open`/`read` itself failed. -/
def readContent (content : Option String) : Option ℤ :=
  content.bind (fun s => pyInt (pyStrip s))

/-- A filesystem snapshot: content of each path, `none` when unreadable. -/
def readSource (fsys : String → Option String) (path : String) : Option ℤ :=
  readContent (fsys path)

/-- Liveness of the `threading.Thread` handle stored in `self.thread`. -/
inductive ThreadState where
  | alive
  | dead
  deriving DecidableEq, Repr

/-- The errors the class raises: `ValueError("Interval must be positive")`
and the two `RuntimeError`s, under the spec's names. -/
inductive MError where
  | invalidConfiguration
  | alreadyRunning
  | notRunning
  deriving DecidableEq, Repr

/-- State of a `FastGPUMonitor` instance: its attributes as assigned in
`__init__` and mutated by the methods.  `thread` is `none` before the
first `start` (`self.thread = None`), otherwise the liveness of the
spawned thread. -/
structure FastGPUMonitor where
  interval : ℚ
  utilization_data : List (ℚ × ℤ)
  stop_event : Bool
  start_time : Option ℚ
  gpu_load_path : String
  thread : Option ThreadState
  deriving DecidableEq, Repr

/-- The hard-coded sysfs path assigned in `__init__`. -/
def gpuLoadPathDefault : String := "/sys/class/devfreq/17000000.gpu/device/load"

/-- `__init__(interval)`.  `pathExists` is the result of
`os.path.exists(self.gpu_load_path)`; the returned Bool records whether
the non-fatal "not found" warning was logged. -/
def FastGPUMonitor.init (interval : ℚ) (pathExists : Bool) :
    Except MError (FastGPUMonitor × Bool) :=
  if interval ≤ 0 then .error .invalidConfiguration
  else
    .ok ({ interval := interval
           utilization_data := []
           stop_event := false
           start_time := none
           gpu_load_path := gpuLoadPathDefault
           thread := none }, !pathExists)

/-- One iteration of the environment seen by the `_monitor` loop:
the stop event's state at the `while` check, the source file content at
the `open`, and the instant returned by `time.time()` after the read. -/
structure Iter where
  stopSet : Bool
  fs : Option String
  now : ℚ
  deriving DecidableEq, Repr

/-- How a run of the `_monitor` loop body ended. -/
inductive LoopExit where
  /-- The trace was exhausted with the loop still iterating (thread alive). -/
  | running
  /-- The `while` condition saw the stop event set: normal exit. -/
  | stopped
  /-- A read raised after at least one success: the `except` block logged
  the error and appended `(timestamp, 0)`, then the thread ended. -/
  | errorSentinel
  /-- A read raised before any success: the `except` block's reference to
  the never-assigned local `timestamp` raises `UnboundLocalError`;
  nothing is appended and the thread ends. -/
  | unboundLocal
  deriving DecidableEq, Repr

/-- The `while` loop of `_monitor`, with the enclosing `try`/`except`.
`lastTs` is the value of the local variable `timestamp` (`none` while it
is unassigned).  Note the `try` wraps the whole `while`: any read
failure leaves the loop. -/
def monitorLoop (t0 : ℚ) :
    List Iter → List (ℚ × ℤ) → Option ℚ → List (ℚ × ℤ) × LoopExit
  | [], data, _ => (data, .running)
  | it :: rest, data, lastTs =>
    if it.stopSet then (data, .stopped)
    else
      match readContent it.fs with
      | some v => monitorLoop t0 rest (data ++ [(it.now - t0, v)]) (some (it.now - t0))
      | none =>
        match lastTs with
        | some ts => (data ++ [(ts, 0)], .errorSentinel)
        | none => (data, .unboundLocal)

/-- `_monitor` running on the spawned thread from its entry at instant
`t0` (`self.start_time = time.time()` is its first statement) through
the given environment trace; the thread handle is dead once the
function returns by any path. -/
def FastGPUMonitor.monitorRun (m : FastGPUMonitor) (t0 : ℚ) (iters : List Iter) :
    FastGPUMonitor × LoopExit :=
  let r := monitorLoop t0 iters m.utilization_data none
  ({ m with
      start_time := some t0
      utilization_data := r.1
      thread := if r.2 = LoopExit.running then m.thread else some ThreadState.dead },
   r.2)

/-- `is_running()`: `self.thread is not None and self.thread.is_alive()`. -/
def FastGPUMonitor.is_running (m : FastGPUMonitor) : Bool :=
  match m.thread with
  | some ThreadState.alive => true
  | _ => false

/-- `start()`: raises if the thread is alive, otherwise clears the data,
clears the stop event and spawns the monitoring thread.  (`start_time`
is not touched here; the loop assigns it as its first statement.) -/
def FastGPUMonitor.start (m : FastGPUMonitor) : Except MError FastGPUMonitor :=
  if m.thread ≠ none ∧ m.thread = some ThreadState.alive then
    .error .alreadyRunning
  else
    .ok { m with
            utilization_data := []
            stop_event := false
            thread := some ThreadState.alive }

/-- `stop()`: raises if no thread is alive, otherwise sets the stop event
and joins the thread; after the join the thread is dead. -/
def FastGPUMonitor.stop (m : FastGPUMonitor) : Except MError FastGPUMonitor :=
  if m.thread = none ∨ m.thread ≠ some ThreadState.alive then
    .error .notRunning
  else
    .ok { m with
            stop_event := true
            thread := some ThreadState.dead }

/-- `get_current_utilization()`: a single independent read of
`self.gpu_load_path`; any exception degrades to `0`. -/
def FastGPUMonitor.get_current_utilization (m : FastGPUMonitor)
    (fsys : String → Option String) : ℤ :=
  match readSource fsys m.gpu_load_path with
  | some v => v
  | none => 0

/-- `statistics.mean` on a list of integers, as an exact rational. -/
def listMean (xs : List ℤ) : ℚ :=
  (xs.sum : ℚ) / (xs.length : ℚ)

/-- Python built-in `max` on a list; the `[]` case is unreachable in
`get_stats` (guarded by the emptiness check). -/
def listMax : List ℤ → ℤ
  | [] => 0
  | x :: xs => xs.foldl max x

/-- The sample variance with `n - 1` denominator, the quantity under the
square root in `statistics.stdev`. -/
def sampleVariance (xs : List ℤ) : ℚ :=
  (xs.map (fun x => ((x : ℚ) - listMean xs) ^ 2)).sum / ((xs.length : ℚ) - 1)

/-- `statistics.stdev`: square root of the sample variance. -/
noncomputable def listStdev (xs : List ℤ) : ℝ :=
  Real.sqrt ((sampleVariance xs : ℚ) : ℝ)

/-- `get_stats()`: `(mean, max, stdev-or-0, count)` over the current
data, `(0, 0, 0, 0)` when there is no data. -/
noncomputable def FastGPUMonitor.get_stats (m : FastGPUMonitor) : ℚ × ℤ × ℝ × ℕ :=
  if m.utilization_data = [] then (0, 0, 0, 0)
  else
    let util_values := m.utilization_data.map Prod.snd
    (listMean util_values, listMax util_values,
     if 1 < util_values.length then listStdev util_values else 0,
     util_values.length)

/-- `get_data()`: a copy of the accumulated `(timestamp, utilization)`
list. -/
def FastGPUMonitor.get_data (m : FastGPUMonitor) : List (ℚ × ℤ) :=
  m.utilization_data

/-- The observer methods in explicit state-passing form: each returns its
result together with the post-call object state.  None of their bodies
assigns any attribute of `self`, so the post-state is the receiver. -/
def FastGPUMonitor.call_get_data (m : FastGPUMonitor) :
    List (ℚ × ℤ) × FastGPUMonitor :=
  (m.get_data, m)

/-- State-passing form of `get_stats` (no attribute assignment). -/
noncomputable def FastGPUMonitor.call_get_stats (m : FastGPUMonitor) :
    (ℚ × ℤ × ℝ × ℕ) × FastGPUMonitor :=
  (m.get_stats, m)

/-- State-passing form of `is_running` (no attribute assignment). -/
def FastGPUMonitor.call_is_running (m : FastGPUMonitor) :
    Bool × FastGPUMonitor :=
  (m.is_running, m)

/-- State-passing form of `get_current_utilization` (reads the
filesystem, assigns no attribute). -/
def FastGPUMonitor.call_get_current_utilization (m : FastGPUMonitor)
    (fsys : String → Option String) : ℤ × FastGPUMonitor :=
  (m.get_current_utilization fsys, m)

/-- A freshly constructed monitor (the payload of
`FastGPUMonitor.init 1 true`), used as a concrete instance. -/
def sampleFresh : FastGPUMonitor :=
  { interval := 1
    utilization_data := []
    stop_event := false
    start_time := none
    gpu_load_path := gpuLoadPathDefault
    thread := none }

/-- A monitor whose background thread is alive, as right after a
successful `start`. -/
def sampleStarted : FastGPUMonitor :=
  { sampleFresh with thread := some ThreadState.alive }

/-- A monitor holding the given sample list (as the loop would have left
it), for stating properties of the accessors over arbitrary data. -/
def statsM (data : List (ℚ × ℤ)) : FastGPUMonitor :=
  { sampleFresh with utilization_data := data }

/-- An environment trace: one successful read of "100" at instant 1,
then three iterations whose reads fail, the stop event never set. -/
def cexTrace : List Iter :=
  [ { stopSet := false, fs := some "100", now := 1 },
    { stopSet := false, fs := none, now := 2 },
    { stopSet := false, fs := none, now := 3 },
    { stopSet := false, fs := none, now := 4 } ]

/-- `is_running` is `true` exactly when the thread handle is an alive
thread. -/
theorem is_running_iff (m : FastGPUMonitor) :
    m.is_running = true ↔ m.thread = some ThreadState.alive := by
  unfold FastGPUMonitor.is_running
  cases h : m.thread with
  | none => simp
  | some s => cases s <;> simp

/-- `is_running` is `false` exactly when the thread handle is absent or
dead. -/
theorem is_running_eq_false_iff (m : FastGPUMonitor) :
    m.is_running = false ↔ m.thread ≠ some ThreadState.alive := by
  unfold FastGPUMonitor.is_running
  cases h : m.thread with
  | none => simp
  | some s => cases s <;> simp

/-- Claim C6: construction succeeds for every sampling interval strictly
greater than zero (even when the source path is missing, in which case
only the non-fatal warning flag is set), and fails with
`InvalidConfiguration` for every interval less than or equal to zero. -/
theorem init_spec :
    (∀ (i : ℚ) (pathExists : Bool), 0 < i →
        FastGPUMonitor.init i pathExists =
          .ok ({ interval := i
                 utilization_data := []
                 stop_event := false
                 start_time := none
                 gpu_load_path := gpuLoadPathDefault
                 thread := none }, !pathExists))
    ∧ (∀ (i : ℚ) (pathExists : Bool), i ≤ 0 →
        FastGPUMonitor.init i pathExists = .error MError.invalidConfiguration) := by
  constructor
  · intro i pe hi
    simp [FastGPUMonitor.init, not_le.mpr hi]
  · intro i pe hi
    simp [FastGPUMonitor.init, hi]

/-- Witness for C6: interval 1 with a missing source path constructs
successfully with the warning emitted; interval 0 is rejected. -/
theorem init_spec_witness :
    FastGPUMonitor.init 1 false =
      .ok ({ interval := 1
             utilization_data := []
             stop_event := false
             start_time := none
             gpu_load_path := gpuLoadPathDefault
             thread := none }, true)
    ∧ FastGPUMonitor.init 0 true = .error MError.invalidConfiguration :=
  ⟨init_spec.1 1 false (by norm_num), init_spec.2 0 true (by norm_num)⟩

/-- Claim C9: a freshly constructed monitor, before any `start`, reports
`is_running() = false`, `get_data() = []` and
`get_stats() = (0, 0, 0, 0)`. -/
theorem fresh_state_spec :
    ∀ (i : ℚ) (pathExists : Bool) (m : FastGPUMonitor) (warned : Bool),
      FastGPUMonitor.init i pathExists = .ok (m, warned) →
      m.is_running = false ∧ m.get_data = [] ∧ m.get_stats = (0, 0, 0, 0) := by
  intro i pe m w h
  by_cases hi : i ≤ 0
  · simp [FastGPUMonitor.init, hi] at h
  · simp [FastGPUMonitor.init, hi] at h
    obtain ⟨hm, -⟩ := h
    subst hm
    refine ⟨rfl, rfl, ?_⟩
    simp [FastGPUMonitor.get_stats]

/-- Witness for C9: the monitor constructed with interval 1. -/
theorem fresh_state_spec_witness :
    sampleFresh.is_running = false ∧ sampleFresh.get_data = []
      ∧ sampleFresh.get_stats = (0, 0, 0, 0) :=
  fresh_state_spec 1 true sampleFresh false rfl

/-- Claim C10: the observer methods `get_data`, `get_stats`,
`is_running` and `get_current_utilization` leave the whole monitor
state (sample sequence, interval, source path, start instant, stop
signal, thread handle) unchanged, in every state. -/
theorem observers_preserve_state :
    ∀ (m : FastGPUMonitor) (fsys : String → Option String),
      (m.call_get_data).2 = m ∧ (m.call_get_stats).2 = m ∧
      (m.call_is_running).2 = m ∧ (m.call_get_current_utilization fsys).2 = m :=
  fun _ _ => ⟨rfl, rfl, rfl, rfl⟩

/-- Claim C3: `start()` fails with `AlreadyRunning` (returning no changed
state: the `raise` is its first statement) whenever the background
thread is alive; otherwise it clears the sample sequence, clears the
stop signal, launches the thread and returns at once with no sample
taken yet, and the loop establishes the new start instant at its own
entry time, before any sample of the session is appended. -/
theorem start_spec :
    (∀ m : FastGPUMonitor, m.is_running = true →
        m.start = .error MError.alreadyRunning)
    ∧ (∀ m : FastGPUMonitor, m.is_running = false →
        m.start = .ok { m with
                          utilization_data := []
                          stop_event := false
                          thread := some ThreadState.alive })
    ∧ (∀ (m : FastGPUMonitor) (t0 : ℚ),
        (({ m with
              utilization_data := []
              stop_event := false
              thread := some ThreadState.alive } : FastGPUMonitor).monitorRun
            t0 []).1.start_time = some t0
        ∧ (({ m with
                utilization_data := []
                stop_event := false
                thread := some ThreadState.alive } : FastGPUMonitor).monitorRun
              t0 []).1.utilization_data = []) := by
  refine ⟨?_, ?_, ?_⟩
  · intro m h
    have ht := (is_running_iff m).mp h
    simp [FastGPUMonitor.start, ht]
  · intro m h
    have ht := (is_running_eq_false_iff m).mp h
    simp [FastGPUMonitor.start, ht]
  · intro m t0
    exact ⟨rfl, rfl⟩

/-- Witness for C3: `start` on an already-running monitor fails, and on
a fresh monitor clears state and spawns the thread. -/
theorem start_spec_witness :
    sampleStarted.start = .error MError.alreadyRunning
    ∧ sampleFresh.start = .ok { sampleFresh with
                                  utilization_data := []
                                  stop_event := false
                                  thread := some ThreadState.alive } :=
  ⟨start_spec.1 sampleStarted rfl, start_spec.2.1 sampleFresh rfl⟩

/-- Claim C4: `stop()` fails with `NotRunning` (returning no changed
state: the `raise` is its first statement) whenever no background
thread is alive; otherwise it sets the stop signal, joins the thread
(modelled by the handle becoming dead), and afterwards `is_running()`
reports false. -/
theorem stop_spec :
    (∀ m : FastGPUMonitor, m.is_running = false →
        m.stop = .error MError.notRunning)
    ∧ (∀ m : FastGPUMonitor, m.is_running = true →
        m.stop = .ok { m with
                         stop_event := true
                         thread := some ThreadState.dead }
        ∧ ({ m with
               stop_event := true
               thread := some ThreadState.dead } : FastGPUMonitor).is_running
            = false) := by
  constructor
  · intro m h
    have ht := (is_running_eq_false_iff m).mp h
    simp [FastGPUMonitor.stop, ht]
  · intro m h
    have ht := (is_running_iff m).mp h
    refine ⟨?_, rfl⟩
    simp [FastGPUMonitor.stop, ht]

/-- Witness for C4: `stop` on a never-started monitor fails with
`NotRunning`; `stop` on a running monitor joins the thread and leaves
`is_running` false. -/
theorem stop_spec_witness :
    sampleFresh.stop = .error MError.notRunning
    ∧ (sampleStarted.stop = .ok { sampleStarted with
                                    stop_event := true
                                    thread := some ThreadState.dead }
       ∧ ({ sampleStarted with
              stop_event := true
              thread := some ThreadState.dead } : FastGPUMonitor).is_running
            = false) :=
  ⟨stop_spec.1 sampleFresh rfl, stop_spec.2 sampleStarted rfl⟩

/-- Counterexample for C5: the code never clamps or checks the parsed
value, so source content "5000" (which parses fine) is returned as
5000, outside [0, 1000] — refuting the claim's assertion that the value
returned on a successful parse is in [0, 1000]. -/
theorem get_current_utilization_range_cex :
    readSource (fun _ => some "5000") sampleFresh.gpu_load_path = some 5000
    ∧ sampleFresh.get_current_utilization (fun _ => some "5000") = 5000
    ∧ ¬(sampleFresh.get_current_utilization (fun _ => some "5000") ≤ 1000) := by
  refine ⟨rfl, rfl, ?_⟩
  rw [show sampleFresh.get_current_utilization (fun _ => some "5000")
        = (5000 : ℤ) from rfl]
  norm_num

/-- Claim C5 amended: `get_current_utilization()` performs a single
independent read of the source path whose result depends only on the
path's content, not on any other monitor state or on the loop: when the
content parses as an integer after trimming whitespace it returns that
integer (which lies in [0, 1000] whenever the source respects its
format contract); on any failure it returns 0, and being a total
function it never raises to the caller. -/
theorem get_current_utilization_spec :
    (∀ (m : FastGPUMonitor) (fsys : String → Option String) (v : ℤ),
        readSource fsys m.gpu_load_path = some v →
        m.get_current_utilization fsys = v)
    ∧ (∀ (m : FastGPUMonitor) (fsys : String → Option String),
        readSource fsys m.gpu_load_path = none →
        m.get_current_utilization fsys = 0)
    ∧ (∀ (m : FastGPUMonitor) (fsys : String → Option String) (v : ℤ),
        readSource fsys m.gpu_load_path = some v → 0 ≤ v → v ≤ 1000 →
        0 ≤ m.get_current_utilization fsys
          ∧ m.get_current_utilization fsys ≤ 1000)
    ∧ (∀ (m m' : FastGPUMonitor) (fsys : String → Option String),
        m.gpu_load_path = m'.gpu_load_path →
        m.get_current_utilization fsys = m'.get_current_utilization fsys) := by
  refine ⟨?_, ?_, ?_, ?_⟩
  · intro m fsys v h
    simp [FastGPUMonitor.get_current_utilization, h]
  · intro m fsys h
    simp [FastGPUMonitor.get_current_utilization, h]
  · intro m fsys v h h0 h1
    simp [FastGPUMonitor.get_current_utilization, h]
    exact ⟨h0, h1⟩
  · intro m m' fsys h
    simp [FastGPUMonitor.get_current_utilization, readSource, h]

/-- Witness for C5: content "500" yields 500 (within bounds), a missing
file yields 0. -/
theorem get_current_utilization_spec_witness :
    sampleFresh.get_current_utilization (fun _ => some "500") = 500
    ∧ sampleFresh.get_current_utilization (fun _ => none) = 0
    ∧ (0 ≤ sampleFresh.get_current_utilization (fun _ => some "500")
       ∧ sampleFresh.get_current_utilization (fun _ => some "500") ≤ 1000) :=
  ⟨get_current_utilization_spec.1 sampleFresh _ 500 rfl,
   get_current_utilization_spec.2.1 sampleFresh _ rfl,
   get_current_utilization_spec.2.2.1 sampleFresh _ 500 rfl (by norm_num)
     (by norm_num)⟩

/-- Claim C2: `get_stats()` returns `(0, 0, 0, 0)` on no data; `(v, v,
0, 1)` for a single sample `(t, v)`; in general the arithmetic mean of
the values, their maximum, the sample standard deviation with `n - 1`
denominator (0 with fewer than 2 samples), and the count; and on values
`[200, 400, 600]` returns mean 400, max 600, stddev 200, count 3. -/
theorem get_stats_spec :
    (statsM []).get_stats = (0, 0, 0, 0)
    ∧ (∀ (t : ℚ) (v : ℤ), (statsM [(t, v)]).get_stats = ((v : ℚ), v, 0, 1))
    ∧ (∀ data : List (ℚ × ℤ),
        (statsM data).get_stats =
          if data = [] then (0, 0, 0, 0)
          else (listMean (data.map Prod.snd), listMax (data.map Prod.snd),
                if 1 < (data.map Prod.snd).length
                  then listStdev (data.map Prod.snd) else 0,
                (data.map Prod.snd).length))
    ∧ (statsM [(0, 200), (1, 400), (2, 600)]).get_stats = (400, 600, 200, 3) := by
  refine ⟨?_, ?_, ?_, ?_⟩
  · simp [FastGPUMonitor.get_stats, statsM]
  · intro t v
    simp [FastGPUMonitor.get_stats, statsM, listMean, listMax]
  · intro data
    rfl
  · have hvar : sampleVariance [200, 400, 600] = 40000 := by
      norm_num [sampleVariance, listMean]
    have hstd : listStdev [200, 400, 600] = 200 := by
      rw [listStdev, hvar, show (((40000 : ℚ) : ℝ)) = (200 : ℝ) ^ 2 by norm_num]
      exact Real.sqrt_sq (by norm_num)
    have hmean : listMean [200, 400, 600] = 400 := by
      norm_num [listMean]
    simp [FastGPUMonitor.get_stats, statsM, hstd, hmean, listMax]

/-- Invariant lemma for the loop: if the accumulated data has
non-decreasing timestamps, every future read instant lies at or after
the last recorded timestamp, the remembered `timestamp` local is at
least the last recorded timestamp, and the trace's clock readings are
non-decreasing, then the data the loop leaves behind (through any exit,
a sentinel append included) has non-decreasing timestamps. -/
theorem monitorLoop_chain (t0 : ℚ) (iters : List Iter) :
    ∀ (data : List (ℚ × ℤ)) (lastTs : Option ℚ),
      List.Chain' (· ≤ ·) (data.map Prod.fst) →
      (∀ p ∈ data.getLast?, ∀ it ∈ iters, p.1 ≤ it.now - t0) →
      (∀ ts ∈ lastTs, ∀ p ∈ data.getLast?, p.1 ≤ ts) →
      List.Pairwise (fun a b : Iter => a.now ≤ b.now) iters →
      List.Chain' (· ≤ ·) (((monitorLoop t0 iters data lastTs).1).map Prod.fst) := by
  induction iters with
  | nil =>
    intro data lastTs hdata _ _ _
    simpa [monitorLoop] using hdata
  | cons it rest ih =>
    intro data lastTs hdata hlink hlast hpw
    obtain ⟨hhead, htail⟩ := List.pairwise_cons.mp hpw
    by_cases hs : it.stopSet
    · simpa [monitorLoop, hs] using hdata
    · cases hr : readContent it.fs with
      | some v =>
        have hnew : List.Chain' (· ≤ ·)
            ((data ++ [(it.now - t0, v)]).map Prod.fst) := by
          rw [List.map_append]
          refine List.chain'_append.mpr ⟨hdata, List.chain'_singleton _, ?_⟩
          intro x hx y hy
          rw [List.getLast?_map] at hx
          rw [List.map_cons, List.map_nil, List.head?_cons] at hy
          have hye := Option.mem_some_iff.mp hy
          subst hye
          obtain ⟨p, hp, hpx⟩ := Option.map_eq_some'.mp hx
          rw [← hpx]
          exact hlink p hp it (by simp)
        have hrec := ih (data ++ [(it.now - t0, v)]) (some (it.now - t0)) hnew
          ?_ ?_ htail
        · simpa [monitorLoop, hs, hr] using hrec
        · intro p hp it2 hit2
          rw [List.getLast?_concat] at hp
          have hpe := Option.mem_some_iff.mp hp
          rw [← hpe]
          exact sub_le_sub_right (hhead it2 hit2) t0
        · intro ts hts p hp
          rw [List.getLast?_concat] at hp
          have hpe := Option.mem_some_iff.mp hp
          have hte := Option.mem_some_iff.mp hts
          rw [← hpe, ← hte]
      | none =>
        cases hl : lastTs with
        | none => simpa [monitorLoop, hs, hr] using hdata
        | some ts =>
          have : List.Chain' (· ≤ ·) ((data ++ [(ts, 0)]).map Prod.fst) := by
            rw [List.map_append]
            refine List.chain'_append.mpr ⟨hdata, List.chain'_singleton _, ?_⟩
            intro x hx y hy
            rw [List.getLast?_map] at hx
            rw [List.map_cons, List.map_nil, List.head?_cons] at hy
            have hye := Option.mem_some_iff.mp hy
            subst hye
            obtain ⟨p, hp, hpx⟩ := Option.map_eq_some'.mp hx
            rw [← hpx]
            exact hlast ts (by rw [hl]; exact Option.mem_some_iff.mpr rfl) p hp
          simpa [monitorLoop, hs, hr] using this

/-- Claim C7: for every session (data cleared at start) and every
environment trace with non-decreasing clock readings, the sequence
`get_data()` returns after the loop has run has non-decreasing elapsed
timestamps in append order — including across the sentinel sample a
read failure appends, which carries the last recorded elapsed
timestamp. -/
theorem get_data_timestamps_mono :
    ∀ (m : FastGPUMonitor) (t0 : ℚ) (iters : List Iter),
      m.utilization_data = [] →
      List.Pairwise (fun a b : Iter => a.now ≤ b.now) iters →
      List.Chain' (· ≤ ·) (((m.monitorRun t0 iters).1.get_data).map Prod.fst) := by
  intro m t0 iters hd hpw
  have h := monitorLoop_chain t0 iters [] none (by simp) (by simp) (by simp) hpw
  simpa [FastGPUMonitor.monitorRun, FastGPUMonitor.get_data, hd] using h

/-- Witness for C7: a concrete session over a trace whose last read
fails, so the returned data ends in a sentinel sample. -/
theorem get_data_timestamps_mono_witness :
    List.Chain' (· ≤ ·)
      (((sampleStarted.monitorRun 0 cexTrace).1.get_data).map Prod.fst) :=
  get_data_timestamps_mono sampleStarted 0 cexTrace rfl (by decide)

/-- Counterexample for C1: over a trace with one successful read and
then three consecutive failed reads (stop never signalled), the loop
appends a single sentinel `(1, 0)` and terminates — only 2 samples, the
thread no longer running — instead of continuing and producing one
zero-valued sample per failing read as the claim states. -/
theorem loop_failure_terminates_cex :
    (sampleStarted.monitorRun 0 cexTrace).1.utilization_data = [(1, 100), (1, 0)]
    ∧ (sampleStarted.monitorRun 0 cexTrace).2 = LoopExit.errorSentinel
    ∧ (sampleStarted.monitorRun 0 cexTrace).1.is_running = false
    ∧ (sampleStarted.monitorRun 0 cexTrace).1.utilization_data.length ≠ 4 := by
  have hdata : (sampleStarted.monitorRun 0 cexTrace).1.utilization_data
      = [(1, 100), (1, 0)] := by
    norm_num [FastGPUMonitor.monitorRun, monitorLoop, cexTrace, sampleStarted,
      sampleFresh, show readContent (some "100") = some 100 from rfl,
      show readContent none = none from rfl]
  refine ⟨hdata, ?_, ?_, ?_⟩
  · norm_num [FastGPUMonitor.monitorRun, monitorLoop, cexTrace, sampleStarted,
      sampleFresh, show readContent (some "100") = some 100 from rfl,
      show readContent none = none from rfl]
  · norm_num [FastGPUMonitor.monitorRun, FastGPUMonitor.is_running, monitorLoop,
      cexTrace, sampleStarted, sampleFresh,
      show readContent (some "100") = some 100 from rfl,
      show readContent none = none from rfl,
      show (if LoopExit.errorSentinel = LoopExit.running then some ThreadState.alive
            else some ThreadState.dead) = some ThreadState.dead from rfl]
  · rw [hdata]
    simp

/-- Claim C1 amended: when a read of the source fails inside the loop
after at least one successful read, the loop logs the error, appends a
single sample with value 0 at the last known elapsed timestamp, and
then terminates (the `try` encloses the whole `while`); a persistently
unavailable source therefore yields one zero-valued sentinel sample and
a dead loop, not an ongoing sequence of zero samples. -/
theorem loop_failure_sentinel_spec :
    ∀ (t0 ts : ℚ) (data : List (ℚ × ℤ)) (it : Iter) (rest : List Iter),
      it.stopSet = false → readContent it.fs = none →
      monitorLoop t0 (it :: rest) data (some ts)
        = (data ++ [(ts, 0)], LoopExit.errorSentinel) := by
  intro t0 ts data it rest hs hr
  simp [monitorLoop, hs, hr]

/-- Witness for C1's amended claim: a failing read after a successful
sample at elapsed time 1 appends `(1, 0)` and ends the loop, with
further trace iterations never reached. -/
theorem loop_failure_sentinel_witness :
    monitorLoop 0
        [{ stopSet := false, fs := none, now := 2 },
         { stopSet := false, fs := none, now := 3 }] [(1, 100)] (some 1)
      = ([(1, 100), (1, 0)], LoopExit.errorSentinel) :=
  loop_failure_sentinel_spec 0 1 [(1, 100)]
    { stopSet := false, fs := none, now := 2 }
    [{ stopSet := false, fs := none, now := 3 }] rfl rfl

/-- Claim C8: if the very first read of a session fails before any
successful read, the error handler references the never-assigned local
`timestamp`: the branch is not well-defined — modelled as an
`UnboundLocalError` exit in which no sentinel sample is appended and
the loop dies.  Stated both for the bare loop (with the `timestamp`
local unassigned) and for a whole session started with empty data. -/
theorem first_read_failure_spec :
    (∀ (t0 : ℚ) (it : Iter) (rest : List Iter) (data : List (ℚ × ℤ)),
        it.stopSet = false → readContent it.fs = none →
        monitorLoop t0 (it :: rest) data none = (data, LoopExit.unboundLocal))
    ∧ (∀ (m : FastGPUMonitor) (t0 : ℚ) (it : Iter) (rest : List Iter),
        m.utilization_data = [] → it.stopSet = false → readContent it.fs = none →
        (m.monitorRun t0 (it :: rest)).1.utilization_data = []
        ∧ (m.monitorRun t0 (it :: rest)).2 = LoopExit.unboundLocal) := by
  have h1 : ∀ (t0 : ℚ) (it : Iter) (rest : List Iter) (data : List (ℚ × ℤ)),
      it.stopSet = false → readContent it.fs = none →
      monitorLoop t0 (it :: rest) data none = (data, LoopExit.unboundLocal) := by
    intro t0 it rest data hs hr
    simp [monitorLoop, hs, hr]
  refine ⟨h1, ?_⟩
  intro m t0 it rest hd hs hr
  constructor
  · simp [FastGPUMonitor.monitorRun, hd, h1 t0 it rest [] hs hr]
  · simp [FastGPUMonitor.monitorRun, hd, h1 t0 it rest [] hs hr]

/-- Witness for C8: a session whose very first read fails ends with no
sample appended and the `UnboundLocalError` exit. -/
theorem first_read_failure_witness :
    (sampleStarted.monitorRun 0 [{ stopSet := false, fs := none, now := 1 }]).1.utilization_data = []
    ∧ (sampleStarted.monitorRun 0 [{ stopSet := false, fs := none, now := 1 }]).2
        = LoopExit.unboundLocal :=
  first_read_failure_spec.2 sampleStarted 0
    { stopSet := false, fs := none, now := 1 } [] rfl rfl rfl
